import Mathlib

/-!
Verification of the session-state lifecycle of the PTL-Assistant repository.

The deterministic core of the repository is the after-agent callback
`store_session_state_callback` in `rag/main_agent.py`, the memory-mirror
callback `auto_save_session_to_memory_callback`, their composition
`combined_after_callback`, and the tool function `generate_explanation`
in `rag/tools/explanation_tools.py`.  This file is a shallow embedding of
that code:

* Python dict/list/string values are embedded as the inductive `Value`;
  Python truthiness is `truthy`.
* The session state (a Python dict mutated only through guarded
  `state[k] = v` writes) is an association list written by appending,
  mirroring dict insertion order.
* An event's `content.parts` is a list of `ContentPart`; `hasattr(part, 'text')`
  versus `hasattr(part, 'function_response')` is modelled as constructor
  discrimination (a part is either a text part or a function-response
  part), and an event whose `content` is missing or empty is the event
  with no parts.
* The regular expression
  `([A-Za-z]+)-grade-(\d+)-([A-Za-z]+)\.\s*Question:\s*(.+)` applied with
  `re.search` and `re.IGNORECASE` is embedded as an explicit leftmost
  matcher (`search_pattern`).  Greedy backtracking is resolved statically:
  every quantified class in the pattern is followed by a literal outside
  the class, so each `+`/`*` consumes its maximal run, except the final
  `\s*(.+)`, whose backtracking is carried out explicitly.  Character
  classes and case folding are modelled over ASCII.
-/

/-- Embedded Python values (dicts keep insertion order as field lists). -/
inductive Value where
  | null : Value
  | bool : Bool → Value
  | num : Int → Value
  | str : String → Value
  | arr : List Value → Value
  | obj : List (String × Value) → Value
deriving Repr

/-- Python truthiness of an embedded value. -/
def truthy : Value → Bool
  | .null => false
  | .bool b => b
  | .num n => n != 0
  | .str s => s ≠ ""
  | .arr l => !l.isEmpty
  | .obj l => !l.isEmpty

/-- Truthiness of an optional value (`None` is falsy). -/
def optTruthy : Option Value → Bool
  | some v => truthy v
  | none => false

/-- The session state: a Python dict from string keys to values,
embedded as an association list in insertion order. -/
abbrev SessionState := List (String × Value)

/-- Dict lookup (first binding wins; the callback only appends
absent keys, so bindings are unique in every state it produces). -/
def lookupKey : SessionState → String → Option Value
  | [], _ => none
  | (k, v) :: rest, key => if k = key then some v else lookupKey rest key

/-- Python `k in state`. -/
def containsKey (st : SessionState) (k : String) : Bool :=
  (lookupKey st k).isSome

/-- The guarded write `if k not in state: state[k] = v` used by the
main merge branch. -/
def setIfAbsent (st : SessionState) (k : String) (v : Value) : SessionState :=
  if containsKey st k then st else st ++ [(k, v)]

/-- One part of an event's content: a text part (`part.text`) or a
function-response part (`part.function_response` with its `name` and
`response` payload). -/
inductive ContentPart where
  | text : String → ContentPart
  | funcResponse : String → Value → ContentPart
deriving Repr

/-- An event of the session history, reduced to its content parts. -/
abbrev Event := List ContentPart

/-! ## The embedded regular-expression search -/

/-- ASCII `[A-Za-z]`. -/
def isAsciiLetter (c : Char) : Bool :=
  ('A' ≤ c && c ≤ 'Z') || ('a' ≤ c && c ≤ 'z')

/-- ASCII `\d`. -/
def isAsciiDigit (c : Char) : Bool :=
  '0' ≤ c && c ≤ '9'

/-- ASCII `\s` (also Python's `str.strip` whitespace set). -/
def isPySpace (c : Char) : Bool :=
  c = ' ' || c = '\t' || c = '\n' || c = '\x0d' || c = '\x0c' || c = '\x0b'

/-- ASCII lower-casing, for `re.IGNORECASE`. -/
def lowerChar (c : Char) : Char :=
  if 'A' ≤ c && c ≤ 'Z' then Char.ofNat (c.toNat + 32) else c

/-- Match a literal (given lower-cased) case-insensitively at the head of
the input, returning the rest of the input on success. -/
def dropLitCI : List Char → List Char → Option (List Char)
  | [], rest => some rest
  | _ :: _, [] => none
  | l :: ls, c :: cs => if lowerChar c = lowerChar l then dropLitCI ls cs else none

/-- Python `str.strip()` on a character list. -/
def pyStripL (l : List Char) : List Char :=
  ((l.dropWhile isPySpace).reverse.dropWhile isPySpace).reverse

/-- Python `str.strip()`. -/
def pyStrip (s : String) : String :=
  String.mk (pyStripL s.data)

/-- The literal `-grade-` of the pattern. -/
def gradeLit : List Char := ['-', 'g', 'r', 'a', 'd', 'e', '-']

/-- The literal `Question:` of the pattern, lower-cased. -/
def questionLit : List Char := ['q', 'u', 'e', 's', 't', 'i', 'o', 'n', ':']

/-- Anchored match of
`([A-Za-z]+)-grade-(\d+)-([A-Za-z]+)\.\s*Question:\s*(.+)` at the start of
the input, returning the four capture groups.  Each `[..]+` run and the
first two `\s*` runs are maximal (each is followed by a literal character
outside the class, so greedy matching admits no shorter run); the final
`\s*(.+)` backtracks: if nothing follows the trailing whitespace run, the
last non-newline whitespace character is given back to `(.+)`. -/
def matchPatternAt (l : List Char) : Option (List Char × List Char × List Char × List Char) :=
  let board := l.takeWhile isAsciiLetter
  if board.isEmpty then none else
  match dropLitCI gradeLit (l.dropWhile isAsciiLetter) with
  | none => none
  | some r2 =>
    let grade := r2.takeWhile isAsciiDigit
    if grade.isEmpty then none else
    match r2.dropWhile isAsciiDigit with
    | '-' :: r4 =>
      let subject := r4.takeWhile isAsciiLetter
      if subject.isEmpty then none else
      match r4.dropWhile isAsciiLetter with
      | '.' :: r6 =>
        match dropLitCI questionLit (r6.dropWhile isPySpace) with
        | none => none
        | some r8 =>
          let r9 := r8.dropWhile isPySpace
          if r9.isEmpty then
            match (r8.takeWhile isPySpace).reverse.dropWhile (fun c => c = '\n') with
            | [] => none
            | c :: _ => some (board, grade, subject, [c])
          else
            some (board, grade, subject, r9.takeWhile (fun c => !(c = '\n')))
      | _ => none
    | _ => none

/-- `re.search`: try the anchored match at each position, leftmost first
(`matchPatternAt []` is `none`, so the final position yields no match). -/
def searchAux : List Char → Option (List Char × List Char × List Char × List Char)
  | [] => matchPatternAt []
  | c :: rest =>
    match matchPatternAt (c :: rest) with
    | some g => some g
    | none => searchAux rest

/-- `re.search(r'([A-Za-z]+)-grade-(\d+)-([A-Za-z]+)\.\s*Question:\s*(.+)', text, re.IGNORECASE)`. -/
def search_pattern (s : String) : Option (List Char × List Char × List Char × List Char) :=
  searchAux s.data

/-- The extracted student record (lines 615-624 of `main_agent.py`). -/
structure StudentInfo where
  board : String
  grade : String
  subject : String
  question : String
deriving Repr

/-- The dict `{"board": .., "grade": .., "subject": .., "question": ..}`. -/
def StudentInfo.toValue (si : StudentInfo) : Value :=
  .obj [("board", .str si.board), ("grade", .str si.grade),
        ("subject", .str si.subject), ("question", .str si.question)]

/-- Extraction from one text: search the pattern and build the record,
stripping the question group (line 618 of `main_agent.py`). -/
def extract_student_info (text : String) : Option StudentInfo :=
  match search_pattern text with
  | some (g1, g2, g3, g4) =>
      some ⟨String.mk g1, String.mk g2, String.mk g3, String.mk (pyStripL g4)⟩
  | none => none

/-! ## The two scans over the event history -/

/-- Inner loop of the tool-response scan (lines 590-599 of
`main_agent.py`): the first `search_corpus_by_name` function-response
part of an event yields its payload and breaks out of the part loop
(later parts of the same event are not examined). -/
def firstRagInEvent : Event → Option Value
  | [] => none
  | .text _ :: rest => firstRagInEvent rest
  | .funcResponse name resp :: rest =>
      if name = "search_corpus_by_name" then some resp else firstRagInEvent rest

/-- Outer loop of the tool-response scan, over events most recent first
(`for event in reversed(session.events)`).  `cur` is the running value of
the `rag_results` local: an event's candidate always overwrites it, but
the loop only breaks (`if rag_results: break`) when the candidate is
truthy. -/
def scanRag (cur : Option Value) : List Event → Option Value
  | [] => cur
  | ev :: rest =>
    match firstRagInEvent ev with
    | some r => if truthy r then some r else scanRag (some r) rest
    | none => scanRag cur rest

/-- The tool-response scan (lines 586-601 of `main_agent.py`). -/
def find_rag_results (events : List Event) : Option Value :=
  scanRag none events.reverse

/-- Inner loop of the pattern-extraction scan (lines 606-626 of
`main_agent.py`): the first text part of an event whose text matches the
pattern yields the record and breaks out of the part loop. -/
def extractFromParts : Event → Option StudentInfo
  | [] => none
  | .text s :: rest =>
    match extract_student_info s with
    | some si => some si
    | none => extractFromParts rest
  | .funcResponse _ _ :: rest => extractFromParts rest

/-- Outer loop of the pattern-extraction scan, over events in original
order (`for event in session.events`).  The inner `break` leaves the part
loop only, so a later event's candidate overwrites an earlier one. -/
def find_student_info (events : List Event) : Option StudentInfo :=
  events.foldl
    (fun acc ev =>
      match extractFromParts ev with
      | some si => some si
      | none => acc)
    none

/-! ## The merge callback -/

/-- `store_session_state_callback` (lines 557-659 of `main_agent.py`) as a
state-transition function `(state, events) -> state`.  The top-level
`try/except` swallows every exception and the body never raises in this
embedding, so the callback is a total function.  Mirrored control flow:

1. early return when the (truthy) state already holds both `rag_results`
   and `student_info`;
2. nothing happens when the event list is empty;
3. when both a truthy tool response and a student record were found, each
   of the four keys is written only if absent;
4. when only a truthy tool response was found, it is written only if
   `student_info` is already present and `rag_results` absent. -/
def store_session_state_callback (state : SessionState) (events : List Event) : SessionState :=
  if !state.isEmpty && containsKey state "rag_results" && containsKey state "student_info" then
    state
  else if events.isEmpty then
    state
  else
    match find_rag_results events, find_student_info events with
    | some rv, some si =>
      if truthy rv then
        setIfAbsent
          (setIfAbsent
            (setIfAbsent
              (setIfAbsent state "rag_results" rv)
              "student_info" si.toValue)
            "style_selected" (.bool false))
          "current_style" .null
      else state
    | some rv, none =>
      if truthy rv then
        if containsKey state "student_info" && !containsKey state "rag_results" then
          state ++ [("rag_results", rv)]
        else state
      else state
    | none, _ => state

/-! ## The memory mirror -/

/-- `auto_save_session_to_memory_callback` (lines 663-687 of
`main_agent.py`): forward the session to the memory service when one is
configured; `try/except` turns a collaborator failure into a logged
no-op, and nothing in the body writes the session state. -/
def auto_save_session_to_memory_callback (hasMemoryService : Bool)
    (addSessionToMemory : SessionState → Except String Unit)
    (state : SessionState) : Except String SessionState :=
  if hasMemoryService then
    match addSessionToMemory state with
    | .ok _ => .ok state
    | .error _ => .ok state
  else .ok state

/-- `combined_after_callback` (lines 721-724 of `main_agent.py`): store
the session state, then save to the memory service. -/
def combined_after_callback (hasMemoryService : Bool)
    (addSessionToMemory : SessionState → Except String Unit)
    (state : SessionState) (events : List Event) : Except String SessionState :=
  auto_save_session_to_memory_callback hasMemoryService addSessionToMemory
    (store_session_state_callback state events)

/-! ## The explanation tool -/

/-- Python `str.lower()` (ASCII). -/
def pyLower (s : String) : String :=
  String.mk (s.data.map lowerChar)

/-- Python `needle in hay` on character lists. -/
def listContains (needle : List Char) : List Char → Bool
  | [] => needle.isPrefixOf []
  | c :: rest => needle.isPrefixOf (c :: rest) || listContains needle rest

/-- Python `needle in hay` on strings. -/
def strContains (hay needle : String) : Bool :=
  listContains needle.data hay.data

/-- One element of `rag_results["results"]`: a record whose `text` field
may be absent (`result.get("text", "")`). -/
structure RagItem where
  text : Option String
deriving Repr

/-- The `rag_results` argument of `generate_explanation`: a dict whose
`results` key may be absent (`rag_results.get("results", [])`).  The
claim quantifies over dicts whose `results` key is missing or is a list,
which is what this typed embedding covers. -/
structure RagResultsArg where
  results : Option (List RagItem)
deriving Repr

/-- The language names probed by the style detection. -/
def languageWords : List String :=
  ["hindi", "tamil", "telugu", "bengali", "marathi", "gujarati",
   "kannada", "malayalam", "odia", "punjabi", "urdu"]

/-- The style-instruction selection of `generate_explanation`
(lines 44-61 of `explanation_tools.py`). -/
def styleInstruction (explanation_style : String) : String :=
  let style_lower := pyStrip (pyLower explanation_style)
  if strContains style_lower "example" then
    "Explain with clear, practical examples. Use real-world scenarios and step-by-step examples."
  else if strContains style_lower "memory" || strContains style_lower "mnemonic" then
    "Explain using memory techniques, mnemonic devices, acronyms, or memory aids. Create memorable associations."
  else if strContains style_lower "story" || strContains style_lower "narrative" then
    "Explain using an engaging story or narrative. Use characters and scenarios to illustrate the concept."
  else if strContains style_lower "language" || languageWords.any (fun w => strContains style_lower w) then
    let language :=
      if strContains style_lower "in " then
        pyStrip ((style_lower.splitOn "in ").getLastD "")
      else explanation_style
    "Explain in " ++ language ++ " language. Use culturally appropriate examples and natural language flow."
  else
    "Explain with clear, practical examples. Use real-world scenarios and step-by-step examples."

/-- The f-string `explanation_prompt` (lines 64-77 of
`explanation_tools.py`); `question or "General explanation"` keeps the
question only when it is a truthy string. -/
def explanationPrompt (style_instruction : String) (question : Option String)
    (context_text : String) : String :=
  let q :=
    match question with
    | some s => if s = "" then "General explanation" else s
    | none => "General explanation"
  "\n        Based on the following educational content, provide an explanation "
    ++ style_instruction
    ++ "\n        \n        Question: " ++ q
    ++ "\n        \n        Content from textbook:\n        " ++ context_text
    ++ "\n        \n        Please provide a comprehensive explanation that:"
    ++ "\n        1. Is accurate and based on the provided content"
    ++ "\n        2. Follows the requested explanation style"
    ++ "\n        3. Is appropriate for the student\x27s grade level"
    ++ "\n        4. Is clear, engaging, and educational\n        "

/-- `generate_explanation` (lines 9-93 of `explanation_tools.py`).  The
`try/except` can never fire on inputs of this shape, so the function is
total; the default of `explanation_style` in the source is
`"with example"`. -/
def generate_explanation (rag_results : RagResultsArg)
    (explanation_style : String) (question : Option String) : Value :=
  let results := rag_results.results.getD []
  if results.isEmpty then
    .obj [("status", .str "error"),
          ("message", .str "No RAG results available to generate explanation"),
          ("error", .str "Empty results")]
  else
    let context_text := String.intercalate "\n\n" (results.map (fun r => r.text.getD ""))
    let si := styleInstruction explanation_style
    .obj [("status", .str "success"),
          ("explanation_style", .str explanation_style),
          ("explanation_prompt", .str (explanationPrompt si question context_text)),
          ("rag_context", .str context_text),
          ("results_count", .num results.length),
          ("message", .str ("Explanation ready to be generated in \x27"
                            ++ explanation_style ++ "\x27 style"))]

/-- Field access on an embedded dict value. -/
def objGet : Value → String → Option Value
  | .obj fields, k => lookupKey fields k
  | _, _ => none

/-! ## Concrete sample data used by witnesses and counterexamples -/

/-- A truthy retrieval response with one result. -/
def respA : Value :=
  .obj [("results", .arr [.obj [("text", .str "alpha")]]), ("status", .str "success")]

/-- A template-matching first turn text. -/
def t1 : String := "CBSE-grade-10-Mathematics. Question: What is a fraction?"

/-- A template-matching later turn text with different fields. -/
def t2 : String := "ICSE-grade-8-Science. Question: Why does ice float?"

/-- Event history with two matching turn texts followed by a retrieval
response. -/
def evsTwoTexts : List Event :=
  [[.text t1], [.text t2], [.funcResponse "search_corpus_by_name" respA]]

/-- A 300-character result text. -/
def c300 : String := String.mk (List.replicate 300 'a')

/-- One retrieval result with a 300-character text. -/
def item300 : Value := .obj [("text", .str c300)]

/-- A retrieval response with 5 results of 300 characters each. -/
def resp5 : Value :=
  .obj [("results", .arr [item300, item300, item300, item300, item300]),
        ("status", .str "success")]

/-- A state that already holds `student_info` but not `rag_results`. -/
def stInfoOnly : SessionState :=
  [("student_info", .obj [("board", .str "CBSE"), ("grade", .str "10"),
                          ("subject", .str "Mathematics"),
                          ("question", .str "What is a fraction?")])]

/-- Event history holding only the 5-result retrieval response. -/
def evsResp5 : List Event := [[.funcResponse "search_corpus_by_name" resp5]]

/-- Event history whose most recent retrieval response has an empty
payload while an older one is truthy. -/
def evsStaleFresh : List Event :=
  [[.funcResponse "search_corpus_by_name" respA],
   [.funcResponse "search_corpus_by_name" (.obj [])]]

/-- The student record of the amended claim C3: the candidate taken from
the most recent event that has a matching text part, namely the first
matching text part of that event. -/
def latestEventExtraction (events : List Event) : Option StudentInfo :=
  (events.reverse.find? (fun ev => (extractFromParts ev).isSome)).bind extractFromParts

/-! ## Association-list lemmas -/

/-- A binding present on the left survives appending. -/
theorem lookupKey_append_left {st : SessionState} {k : String} {v : Value}
    (h : lookupKey st k = some v) (l : SessionState) :
    lookupKey (st ++ l) k = some v := by
  induction st with
  | nil => simp [lookupKey] at h
  | cons p rest ih =>
    obtain ⟨k', v'⟩ := p
    by_cases hk : k' = k
    · simp [lookupKey, hk] at h ⊢
      exact h
    · simp [lookupKey, hk] at h ⊢
      exact ih h

/-- Looking up past an absent left part reaches the right part. -/
theorem lookupKey_append_right {st : SessionState} {k : String}
    (h : lookupKey st k = none) (l : SessionState) :
    lookupKey (st ++ l) k = lookupKey l k := by
  induction st with
  | nil => rfl
  | cons p rest ih =>
    obtain ⟨k', v'⟩ := p
    by_cases hk : k' = k
    · simp [lookupKey, hk] at h
    · simp [lookupKey, hk] at h ⊢
      exact ih h

/-- `setIfAbsent` never changes a present binding. -/
theorem lookupKey_setIfAbsent_preserve {st : SessionState} {k : String} {v : Value}
    (h : lookupKey st k = some v) (k' : String) (v' : Value) :
    lookupKey (setIfAbsent st k' v') k = some v := by
  unfold setIfAbsent
  split
  · exact h
  · exact lookupKey_append_left h _

/-- `setIfAbsent` writes an absent key. -/
theorem lookupKey_setIfAbsent_absent {st : SessionState} {k : String}
    (h : lookupKey st k = none) (v : Value) :
    lookupKey (setIfAbsent st k v) k = some v := by
  unfold setIfAbsent
  rw [if_neg (by simp [containsKey, h])]
  rw [lookupKey_append_right h]
  simp [lookupKey]

/-- `setIfAbsent` at another key does not touch this key. -/
theorem lookupKey_setIfAbsent_other {st : SessionState} {k k' : String}
    (hne : k' ≠ k) (v' : Value) :
    lookupKey (setIfAbsent st k' v') k = lookupKey st k := by
  unfold setIfAbsent
  split
  · rfl
  · cases h : lookupKey st k with
    | some v => exact lookupKey_append_left h _
    | none =>
      rw [lookupKey_append_right h]
      simp [lookupKey, hne]

/-- After `setIfAbsent st k v` the key `k` is present. -/
theorem containsKey_setIfAbsent_self (st : SessionState) (k : String) (v : Value) :
    containsKey (setIfAbsent st k v) k = true := by
  unfold containsKey
  cases h : lookupKey st k with
  | some w => rw [lookupKey_setIfAbsent_preserve h]; rfl
  | none => rw [lookupKey_setIfAbsent_absent h]; rfl

/-- `setIfAbsent` keeps every present key present. -/
theorem containsKey_setIfAbsent_mono {st : SessionState} {k : String}
    (h : containsKey st k = true) (k' : String) (v' : Value) :
    containsKey (setIfAbsent st k' v') k = true := by
  unfold containsKey at h ⊢
  cases hl : lookupKey st k with
  | some w => rw [lookupKey_setIfAbsent_preserve hl]; rfl
  | none => rw [hl] at h; simp at h

/-- Claim C1: for every session state and event history, the merge
callback never removes a key and never changes the value of a key
already present; the state mapping only ever gains keys, so in
particular an existing `student_info` survives a run extracting
different values. -/
theorem merge_never_overwrites (st : SessionState) (evs : List Event)
    (k : String) (v : Value) (h : lookupKey st k = some v) :
    lookupKey (store_session_state_callback st evs) k = some v := by
  unfold store_session_state_callback
  split
  · exact h
  · split
    · exact h
    · split
      · split
        · exact lookupKey_setIfAbsent_preserve
            (lookupKey_setIfAbsent_preserve
              (lookupKey_setIfAbsent_preserve
                (lookupKey_setIfAbsent_preserve h _ _) _ _) _ _) _ _
        · exact h
      · split
        · split
          · exact lookupKey_append_left h _
          · exact h
        · exact h
      · exact h

/-- Witness for C1: a state already holding `student_info` keeps its
value unchanged through a run whose events carry a turn text with
different board/grade/subject/question values and a truthy retrieval
response. -/
theorem merge_never_overwrites_witness :
    lookupKey (store_session_state_callback stInfoOnly evsTwoTexts) "student_info"
      = some (.obj [("board", .str "CBSE"), ("grade", .str "10"),
                    ("subject", .str "Mathematics"),
                    ("question", .str "What is a fraction?")]) :=
  merge_never_overwrites stInfoOnly evsTwoTexts "student_info" _ rfl

/-- The early return: a state already holding both keys is returned
untouched. -/
theorem callback_early_return {st : SessionState} (evs : List Event)
    (h1 : containsKey st "rag_results" = true)
    (h2 : containsKey st "student_info" = true) :
    store_session_state_callback st evs = st := by
  have hne : st.isEmpty = false := by
    cases st with
    | nil => simp [containsKey, lookupKey] at h1
    | cons p rest => rfl
  unfold store_session_state_callback
  rw [if_pos (by rw [hne, h1, h2]; rfl)]

/-- Every run either leaves the state untouched or ends with both
`rag_results` and `student_info` present. -/
theorem callback_dichotomy (st : SessionState) (evs : List Event) :
    store_session_state_callback st evs = st ∨
    (containsKey (store_session_state_callback st evs) "rag_results" = true ∧
     containsKey (store_session_state_callback st evs) "student_info" = true) := by
  unfold store_session_state_callback
  split
  · left; rfl
  · split
    · left; rfl
    · split
      · split
        · right
          constructor
          · exact containsKey_setIfAbsent_mono
              (containsKey_setIfAbsent_mono
                (containsKey_setIfAbsent_mono
                  (containsKey_setIfAbsent_self _ _ _) _ _) _ _) _ _
          · exact containsKey_setIfAbsent_mono
              (containsKey_setIfAbsent_mono
                (containsKey_setIfAbsent_self _ _ _) _ _) _ _
        · left; rfl
      · rename_i rv _
        split
        · split
          · rename_i hguard
            right
            have hsi : containsKey st "student_info" = true := by
              cases hcs : containsKey st "student_info" with
              | true => rfl
              | false => rw [hcs] at hguard; simp at hguard
            have hnr : lookupKey st "rag_results" = none := by
              cases hlr : lookupKey st "rag_results" with
              | none => rfl
              | some w =>
                have : containsKey st "rag_results" = true := by
                  unfold containsKey; rw [hlr]; rfl
                rw [this] at hguard; simp at hguard
            constructor
            · unfold containsKey
              rw [lookupKey_append_right hnr]
              simp [lookupKey]
            · unfold containsKey at hsi ⊢
              cases hls : lookupKey st "student_info" with
              | none => rw [hls] at hsi; simp at hsi
              | some w => rw [lookupKey_append_left hls]; rfl
          · left; rfl
        · left; rfl
      · left; rfl

/-- Claim C2: the merge callback is idempotent; a second run on the same
session with the same event history changes nothing. -/
theorem merge_idempotent (st : SessionState) (evs : List Event) :
    store_session_state_callback (store_session_state_callback st evs) evs
      = store_session_state_callback st evs := by
  rcases callback_dichotomy st evs with h | ⟨h1, h2⟩
  · rw [h]; exact h
  · exact callback_early_return evs h1 h2

/-- Claim C4 (amended): whenever the merge callback writes `rag_results`,
the written value is exactly the raw retrieval-tool response found by the
scan — no summary, truncation or count is computed. -/
theorem rag_results_stored_raw (st : SessionState) (evs : List Event) (v : Value)
    (h1 : lookupKey st "rag_results" = none)
    (h2 : lookupKey (store_session_state_callback st evs) "rag_results" = some v) :
    find_rag_results evs = some v := by
  unfold store_session_state_callback at h2
  split at h2
  · rw [h1] at h2; exact Option.noConfusion h2
  · split at h2
    · rw [h1] at h2; exact Option.noConfusion h2
    · split at h2
      · rename_i rv si heq hsi
        split at h2
        · rw [lookupKey_setIfAbsent_other (show ("current_style" : String) ≠ "rag_results" by decide)] at h2
          rw [lookupKey_setIfAbsent_other (show ("style_selected" : String) ≠ "rag_results" by decide)] at h2
          rw [lookupKey_setIfAbsent_other (show ("student_info" : String) ≠ "rag_results" by decide)] at h2
          rw [lookupKey_setIfAbsent_absent h1] at h2
          cases h2
          exact heq
        · rw [h1] at h2; exact Option.noConfusion h2
      · rename_i rv heq hsi
        split at h2
        · split at h2
          · rw [lookupKey_append_right h1] at h2
            simp only [lookupKey, if_pos rfl] at h2
            cases h2
            exact heq
          · rw [h1] at h2; exact Option.noConfusion h2
        · rw [h1] at h2; exact Option.noConfusion h2
      · rw [h1] at h2; exact Option.noConfusion h2

/-- Witness for the amended C4: the concrete 5-result response is stored
verbatim, so the scan's value and the stored value coincide. -/
theorem rag_results_stored_raw_witness : find_rag_results evsResp5 = some resp5 :=
  rag_results_stored_raw stInfoOnly evsResp5 resp5 rfl rfl

set_option maxRecDepth 4000 in
/-- Counterexample to C4 as stated: for a retrieval response with 5
results of 300 characters each, the stored `rag_results` is the raw
response itself — its texts are untruncated (total length 1500) and it
carries no `summary` or `count` field. -/
theorem rag_summary_counterexample :
    lookupKey (store_session_state_callback stInfoOnly evsResp5) "rag_results" = some resp5
      ∧ objGet resp5 "summary" = none
      ∧ objGet resp5 "count" = none
      ∧ c300.length = 300
      ∧ objGet resp5 "results"
          = some (.arr [item300, item300, item300, item300, item300]) := by
  refine ⟨rfl, rfl, rfl, ?_, rfl⟩
  simp [c300, String.length]

/-- Claim C7 (amended): when the main merge branch runs — both a truthy
retrieval response and a student record were extracted and the state did
not already hold both keys — absent `style_selected` and `current_style`
are initialized to `false` and `null`. -/
theorem style_keys_initialized (st : SessionState) (evs : List Event)
    (h1 : optTruthy (find_rag_results evs) = true)
    (h2 : (find_student_info evs).isSome = true)
    (h3 : ¬(containsKey st "rag_results" = true ∧ containsKey st "student_info" = true)) :
    (lookupKey st "style_selected" = none →
      lookupKey (store_session_state_callback st evs) "style_selected" = some (.bool false)) ∧
    (lookupKey st "current_style" = none →
      lookupKey (store_session_state_callback st evs) "current_style" = some .null) := by
  have hne : evs.isEmpty = false := by
    cases evs with
    | nil => simp [find_rag_results, scanRag, optTruthy] at h1
    | cons e l => rfl
  unfold store_session_state_callback
  split
  · rename_i hcond
    exfalso
    apply h3
    simp only [Bool.and_eq_true] at hcond
    exact ⟨hcond.1.2, hcond.2⟩
  · split
    · rename_i hevs
      rw [hne] at hevs
      exact Bool.noConfusion hevs
    · split
      · rename_i rv si heq hsi
        split
        · constructor
          · intro hss
            rw [lookupKey_setIfAbsent_other (show ("current_style" : String) ≠ "style_selected" by decide)]
            apply lookupKey_setIfAbsent_absent
            rw [lookupKey_setIfAbsent_other (show ("student_info" : String) ≠ "style_selected" by decide)]
            rw [lookupKey_setIfAbsent_other (show ("rag_results" : String) ≠ "style_selected" by decide)]
            exact hss
          · intro hcs
            apply lookupKey_setIfAbsent_absent
            rw [lookupKey_setIfAbsent_other (show ("style_selected" : String) ≠ "current_style" by decide)]
            rw [lookupKey_setIfAbsent_other (show ("student_info" : String) ≠ "current_style" by decide)]
            rw [lookupKey_setIfAbsent_other (show ("rag_results" : String) ≠ "current_style" by decide)]
            exact hcs
        · rename_i htr
          exfalso
          rw [heq] at h1
          exact htr h1
      · rename_i rv heq hsi
        exfalso
        rw [hsi] at h2
        simp at h2
      · rename_i heq
        exfalso
        rw [heq] at h1
        simp [optTruthy] at h1

/-- Witness for the amended C7: from the empty state, a history with a
matching text and a truthy response yields initialized style keys. -/
theorem style_keys_initialized_witness :
    lookupKey (store_session_state_callback [] evsTwoTexts) "style_selected" = some (.bool false) ∧
    lookupKey (store_session_state_callback [] evsTwoTexts) "current_style" = some .null :=
  ⟨(style_keys_initialized [] evsTwoTexts rfl rfl (by simp [containsKey, lookupKey])).1 rfl,
   (style_keys_initialized [] evsTwoTexts rfl rfl (by simp [containsKey, lookupKey])).2 rfl⟩

set_option maxRecDepth 4000 in
/-- Counterexample to C7 as stated: the fallback branch that writes only
`rag_results` (student record already in state, no matching text)
completes a write yet initializes neither `style_selected` nor
`current_style`. -/
theorem style_init_counterexample :
    lookupKey (store_session_state_callback stInfoOnly evsResp5) "rag_results" = some resp5
      ∧ lookupKey (store_session_state_callback stInfoOnly evsResp5) "style_selected" = none
      ∧ lookupKey (store_session_state_callback stInfoOnly evsResp5) "current_style" = none :=
  ⟨rfl, rfl, rfl⟩

/-- Claim C8 (amended): the merge callback is a total function of the
state and events (the top-level exception handler makes the Python
callback return normally); when no truthy retrieval response is found the
state is left entirely unchanged, and when no turn text matches the
template the state is also unchanged provided `student_info` is not
already present (otherwise the fallback branch may still write
`rag_results` alone). -/
theorem merge_noop_when_nothing_found (st : SessionState) (evs : List Event) :
    (optTruthy (find_rag_results evs) = false → store_session_state_callback st evs = st) ∧
    ((find_student_info evs).isSome = false → containsKey st "student_info" = false →
      store_session_state_callback st evs = st) := by
  constructor
  · intro h
    unfold store_session_state_callback
    split
    · rfl
    · split
      · rfl
      · split
        · rename_i rv si heq hsi
          rw [heq] at h
          simp only [optTruthy] at h
          simp [h]
        · rename_i rv heq hsi
          rw [heq] at h
          simp only [optTruthy] at h
          simp [h]
        · rfl
  · intro h hcs
    unfold store_session_state_callback
    split
    · rfl
    · split
      · rfl
      · split
        · rename_i rv si heq hsi
          rw [hsi] at h
          simp at h
        · rename_i rv heq hsi
          rw [hcs]
          simp
        · rfl

/-- Witness for the amended C8: a history with a single non-matching
text leaves a state without `student_info` untouched. -/
theorem merge_noop_when_nothing_found_witness :
    store_session_state_callback [("style_selected", .bool false)] [[.text "hello"]]
      = [("style_selected", .bool false)] :=
  (merge_noop_when_nothing_found [("style_selected", .bool false)] [[.text "hello"]]).1 rfl

set_option maxRecDepth 4000 in
/-- Counterexample to C8 as stated: a history in which no turn text
matches the template (there are no text parts at all) still changes the
state, because `student_info` was already present and the fallback
branch writes `rag_results`. -/
theorem no_match_state_changes_counterexample :
    find_student_info evsResp5 = none
      ∧ lookupKey stInfoOnly "rag_results" = none
      ∧ lookupKey (store_session_state_callback stInfoOnly evsResp5) "rag_results" = some resp5 :=
  ⟨rfl, rfl, rfl⟩

/-- Passing the reverse scan through events whose candidates are all
falsy (or absent) does not affect where it stops. -/
theorem scanRag_through (L : List Event)
    (h : ∀ e ∈ L, ∀ w, firstRagInEvent e = some w → truthy w = false)
    (ev : Event) (v : Value) (hv : firstRagInEvent ev = some v)
    (htr : truthy v = true) (rest : List Event) :
    ∀ cur, scanRag cur (L ++ ev :: rest) = some v := by
  induction L with
  | nil =>
    intro cur
    simp only [List.nil_append, scanRag, hv, htr, if_pos]
  | cons e L ih =>
    intro cur
    have ihL := ih (fun e' he' w hw => h e' (List.mem_cons_of_mem _ he') w hw)
    simp only [List.cons_append, scanRag]
    cases he : firstRagInEvent e with
    | none => exact ihL cur
    | some w =>
      have hw : truthy w = false := h e (List.mem_cons_self _ _) w he
      show (if truthy w = true then some w else scanRag (some w) (L ++ ev :: rest)) = some v
      rw [hw]
      simp only [Bool.false_eq_true, if_false]
      exact ihL (some w)

/-- Claim C6 (amended): the tool-response scan walks the events most
recent first and stops at the first `search_corpus_by_name` response
whose payload is truthy; responses with falsy payloads are skipped (in
favour of older ones) and everything older than the stopping event is
ignored. -/
theorem reverse_scan_most_recent_truthy (evsOld : List Event) (ev : Event)
    (evsNew : List Event) (v : Value)
    (h1 : firstRagInEvent ev = some v) (h2 : truthy v = true)
    (h3 : (evsNew.all fun e =>
            match firstRagInEvent e with
            | some w => !truthy w
            | none => true) = true) :
    find_rag_results (evsOld ++ ev :: evsNew) = some v := by
  have h3' : ∀ e ∈ evsNew.reverse, ∀ w, firstRagInEvent e = some w → truthy w = false := by
    intro e he w hw
    have := List.all_eq_true.mp h3 e (List.mem_reverse.mp he)
    rw [hw] at this
    simpa using this
  unfold find_rag_results
  rw [show (evsOld ++ ev :: evsNew).reverse = evsNew.reverse ++ ev :: evsOld.reverse by simp]
  exact scanRag_through evsNew.reverse h3' ev v h1 h2 evsOld.reverse none

/-- Witness for the amended C6: with a falsy most-recent response and an
older truthy one, the scan stops at the older truthy response. -/
theorem reverse_scan_most_recent_truthy_witness :
    find_rag_results ([] ++ [ContentPart.funcResponse "search_corpus_by_name" respA]
        :: [[ContentPart.funcResponse "search_corpus_by_name" (Value.obj [])]])
      = some respA :=
  reverse_scan_most_recent_truthy []
    [ContentPart.funcResponse "search_corpus_by_name" respA]
    [[ContentPart.funcResponse "search_corpus_by_name" (Value.obj [])]]
    respA rfl rfl rfl

/-- Counterexample to C6 as stated: the history `evsStaleFresh` has its
most recent `search_corpus_by_name` response equal to the empty dict, yet
the scan returns the older truthy response, which differs from it. -/
theorem reverse_scan_counterexample :
    firstRagInEvent [ContentPart.funcResponse "search_corpus_by_name" (Value.obj [])]
        = some (Value.obj [])
      ∧ find_rag_results evsStaleFresh = some respA
      ∧ respA ≠ Value.obj [] := by
  refine ⟨rfl, rfl, ?_⟩
  intro h
  simp [respA] at h

/-- Appending one event to the history: its candidate, if any, overrides
the accumulated one. -/
theorem find_student_info_append (l : List Event) (e : Event) :
    find_student_info (l ++ [e])
      = match extractFromParts e with
        | some si => some si
        | none => find_student_info l := by
  unfold find_student_info
  rw [List.foldl_append]
  rfl

/-- The same step equation for the latest-event characterization. -/
theorem latestEventExtraction_append (l : List Event) (e : Event) :
    latestEventExtraction (l ++ [e])
      = match extractFromParts e with
        | some si => some si
        | none => latestEventExtraction l := by
  unfold latestEventExtraction
  rw [show (l ++ [e]).reverse = e :: l.reverse by simp]
  cases hx : extractFromParts e with
  | some si => simp [List.find?_cons, hx]
  | none => simp [List.find?_cons, hx]

/-- The forward fold with override equals taking the first matching
candidate from the most recent event backwards. -/
theorem find_student_info_eq_latest (evs : List Event) :
    find_student_info evs = latestEventExtraction evs := by
  induction evs using List.reverseRecOn with
  | nil => rfl
  | append_singleton l e ih =>
    rw [find_student_info_append, latestEventExtraction_append, ih]

/-- Claim C3 (amended): when the merge stores a student record, the one
stored is taken from the most recent event that has a matching text part
(the first matching part within that event), not from the first matching
turn in chronological order. -/
theorem student_info_from_latest_event (st : SessionState) (evs : List Event)
    (si : StudentInfo)
    (h1 : lookupKey st "student_info" = none)
    (h2 : optTruthy (find_rag_results evs) = true)
    (h3 : latestEventExtraction evs = some si) :
    lookupKey (store_session_state_callback st evs) "student_info" = some si.toValue := by
  have hfsi : find_student_info evs = some si := by
    rw [find_student_info_eq_latest]; exact h3
  have hne : evs.isEmpty = false := by
    cases evs with
    | nil => simp [find_rag_results, scanRag, optTruthy] at h2
    | cons e l => rfl
  unfold store_session_state_callback
  split
  · rename_i hcond
    exfalso
    simp only [Bool.and_eq_true] at hcond
    have hc := hcond.2
    unfold containsKey at hc
    rw [h1] at hc
    simp at hc
  · split
    · rename_i hevs
      rw [hne] at hevs
      exact Bool.noConfusion hevs
    · split
      · rename_i rv si' heq hsi
        rw [hfsi] at hsi
        cases hsi
        split
        · rw [lookupKey_setIfAbsent_other (show ("current_style" : String) ≠ "student_info" by decide)]
          rw [lookupKey_setIfAbsent_other (show ("style_selected" : String) ≠ "student_info" by decide)]
          apply lookupKey_setIfAbsent_absent
          rw [lookupKey_setIfAbsent_other (show ("rag_results" : String) ≠ "student_info" by decide)]
          exact h1
        · rename_i htr
          exfalso
          rw [heq] at h2
          exact htr h2
      · rename_i rv heq hsi
        exfalso
        rw [hfsi] at hsi
        exact Option.noConfusion hsi
      · rename_i heq
        exfalso
        rw [heq] at h2
        simp [optTruthy] at h2

/-- Witness for the amended C3: on the two-text history, the stored
record is the one parsed from the second (most recent) matching turn. -/
theorem student_info_from_latest_event_witness :
    lookupKey (store_session_state_callback [] evsTwoTexts) "student_info"
      = some (StudentInfo.toValue ⟨"ICSE", "8", "Science", "Why does ice float?"⟩) :=
  student_info_from_latest_event [] evsTwoTexts
    ⟨"ICSE", "8", "Science", "Why does ice float?"⟩ rfl rfl rfl

/-- Counterexample to C3 as stated: both turn texts of `evsTwoTexts`
match the template, the first parses to board `CBSE`, yet the stored
`student_info` carries board `ICSE` from the later turn. -/
theorem first_match_counterexample :
    (extract_student_info t1).map StudentInfo.board = some "CBSE"
      ∧ (extract_student_info t2).map StudentInfo.board = some "ICSE"
      ∧ (lookupKey (store_session_state_callback [] evsTwoTexts) "student_info").bind
          (fun v => objGet v "board") = some (.str "ICSE")
      ∧ ("ICSE" : String) ≠ "CBSE" := by
  refine ⟨rfl, rfl, rfl, by decide⟩

/-- Claim C9: whatever the memory collaborator does — succeed or raise —
the combined after-callback returns normally with exactly the state the
merge produced: the memory mirror neither propagates the failure nor
alters the session state. -/
theorem memory_mirror_fire_and_forget (hasMemoryService : Bool)
    (addSessionToMemory : SessionState → Except String Unit)
    (st : SessionState) (evs : List Event) :
    combined_after_callback hasMemoryService addSessionToMemory st evs
      = .ok (store_session_state_callback st evs) := by
  unfold combined_after_callback auto_save_session_to_memory_callback
  cases hasMemoryService with
  | false => rfl
  | true =>
    simp only [if_pos]
    cases addSessionToMemory (store_session_state_callback st evs) with
    | ok u => rfl
    | error e => rfl

/-- Claim C10: `generate_explanation` never raises; a missing or empty
`results` list yields the error record with the fixed message, and a
non-empty list yields status `success`, `results_count` equal to the
list's length, and `rag_context` equal to the results' texts (defaulting
to the empty string) joined by blank lines. -/
theorem generate_explanation_spec (rr : RagResultsArg) (style : String)
    (q : Option String) :
    (rr.results.getD [] = [] →
      generate_explanation rr style q
        = .obj [("status", .str "error"),
                ("message", .str "No RAG results available to generate explanation"),
                ("error", .str "Empty results")]) ∧
    (∀ l, rr.results = some l → l ≠ [] →
      objGet (generate_explanation rr style q) "status" = some (.str "success")
        ∧ objGet (generate_explanation rr style q) "results_count" = some (.num l.length)
        ∧ objGet (generate_explanation rr style q) "rag_context"
            = some (.str (String.intercalate "\n\n" (l.map fun r => r.text.getD "")))) := by
  constructor
  · intro h
    unfold generate_explanation
    rw [h]
    rfl
  · intro l hl hne
    have hemp : l.isEmpty = false := by
      cases l with
      | nil => exact absurd rfl hne
      | cons a t => rfl
    unfold generate_explanation
    rw [hl]
    simp only [Option.getD_some, hemp, Bool.false_eq_true, if_false]
    refine ⟨?_, ?_, ?_⟩ <;> simp [objGet, lookupKey]

/-- Witness for C10: a two-result input produces count 2 and the joined
context, and an absent `results` key produces the error record. -/
theorem generate_explanation_spec_witness :
    (objGet (generate_explanation ⟨some [⟨some "alpha"⟩, ⟨none⟩]⟩ "with example" (some "Why"))
        "results_count" = some (.num 2))
      ∧ (objGet (generate_explanation ⟨some [⟨some "alpha"⟩, ⟨none⟩]⟩ "with example" (some "Why"))
          "rag_context" = some (.str "alpha\n\n"))
      ∧ generate_explanation ⟨none⟩ "with example" none
          = .obj [("status", .str "error"),
                  ("message", .str "No RAG results available to generate explanation"),
                  ("error", .str "Empty results")] :=
  ⟨((generate_explanation_spec ⟨some [⟨some "alpha"⟩, ⟨none⟩]⟩ "with example" (some "Why")).2
      [⟨some "alpha"⟩, ⟨none⟩] rfl (List.cons_ne_nil _ _)).2.1,
   ((generate_explanation_spec ⟨some [⟨some "alpha"⟩, ⟨none⟩]⟩ "with example" (some "Why")).2
      [⟨some "alpha"⟩, ⟨none⟩] rfl (List.cons_ne_nil _ _)).2.2,
   (generate_explanation_spec ⟨none⟩ "with example" none).1 rfl⟩

theorem takeWhile_append_all {p : Char → Bool} {xs : List Char}
    (h : ∀ c ∈ xs, p c = true) (ys : List Char) :
    (xs ++ ys).takeWhile p = xs ++ ys.takeWhile p := by
  induction xs with
  | nil => rfl
  | cons a t ih =>
    have ha := h a (List.mem_cons_self _ _)
    simp only [List.cons_append, List.takeWhile_cons, ha, if_true]
    rw [ih (fun c hc => h c (List.mem_cons_of_mem _ hc))]

theorem dropWhile_append_all {p : Char → Bool} {xs : List Char}
    (h : ∀ c ∈ xs, p c = true) (ys : List Char) :
    (xs ++ ys).dropWhile p = ys.dropWhile p := by
  induction xs with
  | nil => rfl
  | cons a t ih =>
    have ha := h a (List.mem_cons_self _ _)
    simp only [List.cons_append, List.dropWhile_cons, ha, if_true]
    exact ih (fun c hc => h c (List.mem_cons_of_mem _ hc))

theorem takeWhile_all_eq {p : Char → Bool} {l : List Char}
    (h : ∀ c ∈ l, p c = true) : l.takeWhile p = l := by
  induction l with
  | nil => rfl
  | cons a t ih =>
    simp only [List.takeWhile_cons, h a (List.mem_cons_self _ _), if_true]
    rw [ih (fun c hc => h c (List.mem_cons_of_mem _ hc))]

theorem dropWhile_all_neg {p : Char → Bool} {l : List Char}
    (h : ∀ c ∈ l, p c = false) : l.dropWhile p = l := by
  cases l with
  | nil => rfl
  | cons a t =>
    simp only [List.dropWhile_cons, h a (List.mem_cons_self _ _), Bool.false_eq_true, if_false]

theorem all_of_dropWhile_nil {p : Char → Bool} {l : List Char}
    (h : l.dropWhile p = []) : ∀ c ∈ l, p c = true := by
  induction l with
  | nil => intro c hc; exact absurd hc (List.not_mem_nil c)
  | cons a t ih =>
    intro c hc
    cases hp : p a with
    | true =>
      simp only [List.dropWhile_cons, hp, if_true] at h
      rcases List.mem_cons.mp hc with rfl | hct
      · exact hp
      · exact ih h c hct
    | false =>
      rw [List.dropWhile_cons, hp] at h
      simp at h

theorem dropWhile_idem (p : Char → Bool) (l : List Char) :
    (l.dropWhile p).dropWhile p = l.dropWhile p := by
  induction l with
  | nil => rfl
  | cons a t ih =>
    by_cases hp : p a = true
    · simp only [List.dropWhile_cons, hp, if_true]
      exact ih
    · have hp' : p a = false := by simp at hp; exact hp
      simp only [List.dropWhile_cons, hp', Bool.false_eq_true, if_false]

theorem mem_of_mem_dropWhile {p : Char → Bool} {l : List Char} {c : Char}
    (h : c ∈ l.dropWhile p) : c ∈ l := by
  induction l with
  | nil => simp at h
  | cons a t ih =>
    cases hp : p a with
    | true =>
      rw [List.dropWhile_cons, hp] at h
      simp only [if_true] at h
      exact List.mem_cons_of_mem _ (ih h)
    | false =>
      rw [List.dropWhile_cons, hp] at h
      simpa using h

theorem matchAt_template (B G S Q : List Char)
    (hb1 : B ≠ []) (hb2 : ∀ c ∈ B, isAsciiLetter c = true)
    (hg1 : G ≠ []) (hg2 : ∀ c ∈ G, isAsciiDigit c = true)
    (hs1 : S ≠ []) (hs2 : ∀ c ∈ S, isAsciiLetter c = true)
    (hq : ∀ c ∈ Q, ¬ c = '\n') :
    ∃ g4,
      matchPatternAt (B ++ '-' :: 'g' :: 'r' :: 'a' :: 'd' :: 'e' :: '-' ::
          (G ++ '-' :: (S ++ '.' :: ' ' :: 'Q' :: 'u' :: 'e' :: 's' :: 't' :: 'i' :: 'o' :: 'n' :: ':' :: ' ' :: Q)))
        = some (B, G, S, g4) ∧ pyStripL g4 = pyStripL Q := by
  have hbe : B.isEmpty = false := by cases B with | nil => exact absurd rfl hb1 | cons a t => rfl
  have hge : G.isEmpty = false := by cases G with | nil => exact absurd rfl hg1 | cons a t => rfl
  have hse : S.isEmpty = false := by cases S with | nil => exact absurd rfl hs1 | cons a t => rfl
  have e1 : (B ++ '-' :: 'g' :: 'r' :: 'a' :: 'd' :: 'e' :: '-' ::
      (G ++ '-' :: (S ++ '.' :: ' ' :: 'Q' :: 'u' :: 'e' :: 's' :: 't' :: 'i' :: 'o' :: 'n' :: ':' :: ' ' :: Q))).takeWhile isAsciiLetter = B := by
    rw [takeWhile_append_all hb2]
    rw [show ('-' :: 'g' :: 'r' :: 'a' :: 'd' :: 'e' :: '-' ::
      (G ++ '-' :: (S ++ '.' :: ' ' :: 'Q' :: 'u' :: 'e' :: 's' :: 't' :: 'i' :: 'o' :: 'n' :: ':' :: ' ' :: Q))).takeWhile isAsciiLetter = [] from rfl]
    exact List.append_nil B
  have e2 : (B ++ '-' :: 'g' :: 'r' :: 'a' :: 'd' :: 'e' :: '-' ::
      (G ++ '-' :: (S ++ '.' :: ' ' :: 'Q' :: 'u' :: 'e' :: 's' :: 't' :: 'i' :: 'o' :: 'n' :: ':' :: ' ' :: Q))).dropWhile isAsciiLetter
        = '-' :: 'g' :: 'r' :: 'a' :: 'd' :: 'e' :: '-' ::
          (G ++ '-' :: (S ++ '.' :: ' ' :: 'Q' :: 'u' :: 'e' :: 's' :: 't' :: 'i' :: 'o' :: 'n' :: ':' :: ' ' :: Q)) := by
    rw [dropWhile_append_all hb2]
    rfl
  have e3 : dropLitCI gradeLit ('-' :: 'g' :: 'r' :: 'a' :: 'd' :: 'e' :: '-' ::
      (G ++ '-' :: (S ++ '.' :: ' ' :: 'Q' :: 'u' :: 'e' :: 's' :: 't' :: 'i' :: 'o' :: 'n' :: ':' :: ' ' :: Q)))
        = some (G ++ '-' :: (S ++ '.' :: ' ' :: 'Q' :: 'u' :: 'e' :: 's' :: 't' :: 'i' :: 'o' :: 'n' :: ':' :: ' ' :: Q)) := rfl
  have e4 : (G ++ '-' :: (S ++ '.' :: ' ' :: 'Q' :: 'u' :: 'e' :: 's' :: 't' :: 'i' :: 'o' :: 'n' :: ':' :: ' ' :: Q)).takeWhile isAsciiDigit = G := by
    rw [takeWhile_append_all hg2]
    rw [show ('-' :: (S ++ '.' :: ' ' :: 'Q' :: 'u' :: 'e' :: 's' :: 't' :: 'i' :: 'o' :: 'n' :: ':' :: ' ' :: Q)).takeWhile isAsciiDigit = [] from rfl]
    exact List.append_nil G
  have e5 : (G ++ '-' :: (S ++ '.' :: ' ' :: 'Q' :: 'u' :: 'e' :: 's' :: 't' :: 'i' :: 'o' :: 'n' :: ':' :: ' ' :: Q)).dropWhile isAsciiDigit
        = '-' :: (S ++ '.' :: ' ' :: 'Q' :: 'u' :: 'e' :: 's' :: 't' :: 'i' :: 'o' :: 'n' :: ':' :: ' ' :: Q) := by
    rw [dropWhile_append_all hg2]
    rfl
  have e6 : (S ++ '.' :: ' ' :: 'Q' :: 'u' :: 'e' :: 's' :: 't' :: 'i' :: 'o' :: 'n' :: ':' :: ' ' :: Q).takeWhile isAsciiLetter = S := by
    rw [takeWhile_append_all hs2]
    rw [show ('.' :: ' ' :: 'Q' :: 'u' :: 'e' :: 's' :: 't' :: 'i' :: 'o' :: 'n' :: ':' :: ' ' :: Q).takeWhile isAsciiLetter = [] from rfl]
    exact List.append_nil S
  have e7 : (S ++ '.' :: ' ' :: 'Q' :: 'u' :: 'e' :: 's' :: 't' :: 'i' :: 'o' :: 'n' :: ':' :: ' ' :: Q).dropWhile isAsciiLetter
        = '.' :: ' ' :: 'Q' :: 'u' :: 'e' :: 's' :: 't' :: 'i' :: 'o' :: 'n' :: ':' :: ' ' :: Q := by
    rw [dropWhile_append_all hs2]
    rfl
  have e8 : ((' ' : Char) :: 'Q' :: 'u' :: 'e' :: 's' :: 't' :: 'i' :: 'o' :: 'n' :: ':' :: ' ' :: Q).dropWhile isPySpace
        = 'Q' :: 'u' :: 'e' :: 's' :: 't' :: 'i' :: 'o' :: 'n' :: ':' :: ' ' :: Q := rfl
  have e9 : dropLitCI questionLit ('Q' :: 'u' :: 'e' :: 's' :: 't' :: 'i' :: 'o' :: 'n' :: ':' :: ' ' :: Q) = some (' ' :: Q) := rfl
  have e10 : ((' ' : Char) :: Q).dropWhile isPySpace = Q.dropWhile isPySpace := rfl
  simp only [matchPatternAt, e1, hbe, Bool.false_eq_true, if_false, e2, e3, e4, hge, e5, e6,
    hse, e7, e8, e9, e10]
  cases hD : Q.dropWhile isPySpace with
  | cons d ds =>
    simp only [List.isEmpty_cons, Bool.false_eq_true, if_false]
    refine ⟨(d :: ds).takeWhile (fun c => !(c = '\n')), rfl, ?_⟩
    have hsub : ∀ c ∈ d :: ds, c ∈ Q := by
      intro c hc
      rw [← hD] at hc
      exact mem_of_mem_dropWhile hc
    have hall : ∀ c ∈ d :: ds, (fun c => !(c = '\n')) c = true := by
      intro c hc
      simp only [Bool.not_eq_true']
      exact decide_eq_false (hq c (hsub c hc))
    rw [takeWhile_all_eq hall, ← hD]
    rw [show pyStripL (Q.dropWhile isPySpace)
        = (((Q.dropWhile isPySpace).dropWhile isPySpace).reverse.dropWhile isPySpace).reverse from rfl]
    rw [dropWhile_idem]
    rfl
  | nil =>
    simp only [List.isEmpty_nil, if_true]
    have hQall : ∀ c ∈ Q, isPySpace c = true := all_of_dropWhile_nil hD
    have hw : ((' ' : Char) :: Q).takeWhile isPySpace = ' ' :: Q := by
      rw [show ((' ' : Char) :: Q).takeWhile isPySpace = ' ' :: Q.takeWhile isPySpace from rfl]
      rw [takeWhile_all_eq hQall]
    rw [hw]
    have hwall : ∀ c ∈ ((' ' : Char) :: Q).reverse, (fun c => decide (c = '\n')) c = false := by
      intro c hc
      rw [List.mem_reverse] at hc
      rcases List.mem_cons.mp hc with rfl | hcq
      · rfl
      · exact decide_eq_false (hq c hcq)
    rw [dropWhile_all_neg hwall]
    cases hrc : ((' ' : Char) :: Q).reverse with
    | nil =>
      exfalso
      have : ((' ' : Char) :: Q).reverse ≠ [] := by simp
      exact this hrc
    | cons c tl =>
      have hcw : c ∈ (' ' : Char) :: Q := by
        rw [← List.mem_reverse, hrc]
        exact List.mem_cons_self _ _
      have hcsp : isPySpace c = true := by
        rcases List.mem_cons.mp hcw with rfl | hcq
        · rfl
        · exact hQall c hcq
      refine ⟨[c], rfl, ?_⟩
      rw [show pyStripL [c] = (([c].dropWhile isPySpace).reverse.dropWhile isPySpace).reverse from rfl]
      rw [List.dropWhile_cons, if_pos hcsp]
      rw [show pyStripL Q = ((Q.dropWhile isPySpace).reverse.dropWhile isPySpace).reverse from rfl]
      rw [hD]
      rfl

theorem searchAux_pos {l : List Char} {g : List Char × List Char × List Char × List Char}
    (h : matchPatternAt l = some g) : searchAux l = some g := by
  cases l with
  | nil => rw [show searchAux [] = matchPatternAt [] from rfl, h]
  | cons c rest =>
    show (match matchPatternAt (c :: rest) with
          | some g => some g
          | none => searchAux rest) = some g
    rw [h]

/-- Claim C5: for every turn text of the exact form
`BOARD-grade-GRADE-SUBJECT. Question: QUESTION` (board and subject
non-empty alphabetic words, grade non-empty digits, question free of
newlines), the pattern extraction returns the four fields with the
question whitespace-stripped. -/
theorem pattern_extractor_correct (board grade subject question : String)
    (hb1 : board.data ≠ []) (hb2 : ∀ c ∈ board.data, isAsciiLetter c = true)
    (hg1 : grade.data ≠ []) (hg2 : ∀ c ∈ grade.data, isAsciiDigit c = true)
    (hs1 : subject.data ≠ []) (hs2 : ∀ c ∈ subject.data, isAsciiLetter c = true)
    (hq : ∀ c ∈ question.data, ¬ c = '\n') :
    extract_student_info
        (board ++ "-grade-" ++ grade ++ "-" ++ subject ++ ". Question: " ++ question)
      = some ⟨board, grade, subject, pyStrip question⟩ := by
  have hap : ∀ a b : String, (a ++ b).data = a.data ++ b.data := fun a b => rfl
  have hdata : (board ++ "-grade-" ++ grade ++ "-" ++ subject ++ ". Question: " ++ question).data
      = board.data ++ '-' :: 'g' :: 'r' :: 'a' :: 'd' :: 'e' :: '-' ::
          (grade.data ++ '-' :: (subject.data ++ '.' :: ' ' :: 'Q' :: 'u' :: 'e' :: 's' :: 't' :: 'i' :: 'o' :: 'n' :: ':' :: ' ' :: question.data)) := by
    simp only [hap]
    simp [List.append_assoc]
  obtain ⟨g4, hm, hstrip⟩ := matchAt_template board.data grade.data subject.data question.data
    hb1 hb2 hg1 hg2 hs1 hs2 hq
  unfold extract_student_info search_pattern
  rw [hdata, searchAux_pos hm]
  show some ({ board := String.mk board.data, grade := String.mk grade.data,
               subject := String.mk subject.data,
               question := String.mk (pyStripL g4) } : StudentInfo)
      = some ⟨board, grade, subject, pyStrip question⟩
  rw [hstrip]
  rfl

/-- Witness for C5: the spec's own example text parses to the expected
record. -/
theorem pattern_extractor_correct_witness :
    extract_student_info
        ("CBSE" ++ "-grade-" ++ "10" ++ "-" ++ "Mathematics" ++ ". Question: " ++ "What is a fraction?")
      = some ⟨"CBSE", "10", "Mathematics", pyStrip "What is a fraction?"⟩ :=
  pattern_extractor_correct "CBSE" "10" "Mathematics" "What is a fraction?"
    (by decide) (by decide) (by decide) (by decide) (by decide) (by decide) (by decide)
